import Mathlib

/-!
Verification of the `nanobot` shell-execution tool
(`src/nanobot/agent/tools/shell.py`, class `ExecTool`).

Modelling conventions (shallow embedding):

* A Python `str` is modelled as `List Char` (`PyStr`).  Python's
  case-lowering and whitespace stripping are modelled over ASCII
  (`Char.toLower`, `Char.isWhitespace`), which covers every character the
  guard's own patterns and tokens use.
* `re.search` over a configured pattern is abstracted as a function
  `ReSearch : PyStr → PyStr → Bool` (pattern, text ↦ found); all theorems
  about the deny/allow machinery are proved for an arbitrary such
  function.  The two path-extraction regexes of
  `ExecTool._extract_absolute_paths` are fixed literal patterns and are
  embedded concretely as character scanners (`winScan`, `posixScan`)
  implementing `re.findall` for exactly those two patterns.
* `pathlib.Path(s).resolve()` is abstracted as
  `Resolve : PyStr → Option RPath`, `none` meaning the call raised.  An
  `RPath` is a resolved path: an anchor flag plus the list of components,
  with `pathlib`'s `p.parents` membership modelled as strict prefix of
  the component list (`RPath.inParents`).
* The `async` effects of `ExecTool.execute` are modelled by an oracle
  `RunOutcome` describing what the one spawned subprocess did
  (spawn failure / timeout / completion with captured output), and the
  call's observable behaviour is its returned string together with an
  ordered trace of `ExecEvent`s.  A raised exception that escapes
  `execute` is `Except.error`.
* Environment construction (`env["PATH"] = ...`) only feeds the spawned
  process and is invisible in the returned string, so it is not modelled.
-/

/-- Python `str`, as a list of characters. -/
abbrev PyStr := List Char

/-- `str.lower()` (ASCII). -/
def pyLower (s : PyStr) : PyStr := s.map Char.toLower

/-- Whitespace for `str.strip()` and the regex class `\s` (ASCII core). -/
def pyIsSpace (c : Char) : Bool := c.isWhitespace

/-- `str.strip()`: drop whitespace from both ends. -/
def pyStrip (s : PyStr) : PyStr :=
  ((s.dropWhile pyIsSpace).reverse.dropWhile pyIsSpace).reverse

/-- Bool test: `t` is a leading block of `s` (used by `pyIn`). -/
def listPre : PyStr → PyStr → Bool
  | [], _ => true
  | _ :: _, [] => false
  | a :: t, b :: s => a == b && listPre t s

/-- Python's substring test `t in s`. -/
def pyIn (t : PyStr) : PyStr → Bool
  | [] => t.isEmpty
  | s@(_ :: s') => listPre t s || pyIn t s'

/-! ## Absolute-path extraction (`ExecTool._extract_absolute_paths`)

The source runs `re.findall` with two fixed patterns:

* Windows drive paths: a letter, `:`, `\`, then one or more characters
  outside the class of whitespace, `"`, `'`, `|`, `>`, `<`, `;`;
* POSIX absolute paths: at the start of the string or right after a
  character of the class whitespace, `|`, `>`, the captured group is `/`
  followed by one or more characters outside the class of whitespace,
  `"`, `'`, `>`.

`winScan` and `posixScan` implement `re.findall`'s left-to-right,
non-overlapping, greedy scan for exactly these patterns. -/

/-- Characters allowed inside a matched Windows path (`[^\s"'|><;]`). -/
def isWinPathChar (c : Char) : Bool :=
  !(pyIsSpace c || c == '"' || c == '\'' || c == '|' || c == '>' ||
    c == '<' || c == ';')

/-- Characters allowed inside a matched POSIX path (`[^\s"'>]`). -/
def isPosixPathChar (c : Char) : Bool :=
  !(pyIsSpace c || c == '"' || c == '\'' || c == '>')

/-- Characters of the class `[\s|>]` that may precede a POSIX path. -/
def isPosixLeadChar (c : Char) : Bool :=
  pyIsSpace c || c == '|' || c == '>'

theorem length_dropWhile_le (p : Char → Bool) (l : List Char) :
    (l.dropWhile p).length ≤ l.length :=
  (List.dropWhile_suffix p).length_le

/-- `re.findall(r"[A-Za-z]:\\\\[^\\s\\"'|><;]+", command)`, written with an
explicit fuel argument for structural recursion: every scan step both
consumes fuel and strictly shortens the string, so fuel equal to the
string length (as supplied by `winScan`) never runs out. -/
def winScanF : Nat → List Char → List PyStr
  | fuel + 1, c0 :: ':' :: '\\' :: tail =>
    if c0.isAlpha && !(tail.takeWhile isWinPathChar).isEmpty then
      (c0 :: ':' :: '\\' :: tail.takeWhile isWinPathChar) ::
        winScanF fuel (tail.dropWhile isWinPathChar)
    else
      winScanF fuel (':' :: '\\' :: tail)
  | fuel + 1, _ :: rest => winScanF fuel rest
  | _, [] => []
  | 0, _ :: _ => []

def winScan (s : List Char) : List PyStr := winScanF s.length s

/-- Scan for the POSIX pattern at positions after the start of the
string: a `[\s|>]` character followed by the captured group.  Fueled
like `winScanF`. -/
def posixScanAuxF : Nat → List Char → List PyStr
  | fuel + 1, c :: '/' :: tail =>
    if isPosixLeadChar c then
      if (tail.takeWhile isPosixPathChar).isEmpty then
        posixScanAuxF fuel ('/' :: tail)
      else
        ('/' :: tail.takeWhile isPosixPathChar) ::
          posixScanAuxF fuel (tail.dropWhile isPosixPathChar)
    else
      posixScanAuxF fuel ('/' :: tail)
  | fuel + 1, _ :: rest => posixScanAuxF fuel rest
  | _, [] => []
  | 0, _ :: _ => []

def posixScanAux (s : List Char) : List PyStr := posixScanAuxF s.length s

/-- `re.findall(r"(?:^|[\s|>])(/[^\s\"'>]+)", command)`: the `^`
alternative is only available at position zero. -/
def posixScan (s : List Char) : List PyStr :=
  match s with
  | '/' :: tail =>
    if (tail.takeWhile isPosixPathChar).isEmpty then
      posixScanAux s
    else
      ('/' :: tail.takeWhile isPosixPathChar) ::
        posixScanAux (tail.dropWhile isPosixPathChar)
  | _ => posixScanAux s

/-- `ExecTool._extract_absolute_paths`: Windows matches then POSIX
matches. -/
def extractAbsolutePaths (command : PyStr) : List PyStr :=
  winScan command ++ posixScan command

/-! ## Resolved paths -/

/-- A path returned by `pathlib.Path(...).resolve()`: an anchor flag and
the component parts. -/
structure RPath where
  isAbs : Bool
  comps : List PyStr
deriving DecidableEq

/-- `cwd in p.parents`: the parents of `p` are its strict ancestors, so
membership is strict prefix of the component list under the same
anchor. -/
def RPath.inParents (cwd p : RPath) : Bool :=
  cwd.isAbs == p.isAbs && cwd.comps.isPrefixOf p.comps &&
    decide (cwd.comps.length < p.comps.length)

/-- Abstract `re.search(pattern, text) is not None`. -/
abbrev ReSearch := PyStr → PyStr → Bool

/-- Abstract `pathlib.Path(s).resolve()`; `none` means the call raised. -/
abbrev Resolve := PyStr → Option RPath

/-! ## Configuration (`ExecTool.__init__`, `_detect_shell`) -/

/-- Python `x or default` for an optional list argument: `None` and the
empty list are falsy. -/
def pyOrList (a : Option (List PyStr)) (b : List PyStr) : List PyStr :=
  match a with
  | some l => if l.isEmpty then b else l
  | none => b

/-- Python `x or y` chaining for optional strings: `None` and `""` are
falsy. -/
def pyOrS (a : Option PyStr) (b : PyStr) : PyStr :=
  match a with
  | some s => if s.isEmpty then b else s
  | none => b

/-- The built-in default deny patterns, as their regex source texts. -/
def defaultDenyPatterns : List PyStr :=
  [ "\\brm\\s+-[rf]\x7b1,2\x7d\\b".data,
    "\\bdel\\s+/[fq]\\b".data,
    "\\brmdir\\s+/s\\b".data,
    "(?:^|[;&|]\\s*)format\\b".data,
    "\\b(mkfs|diskpart)\\b".data,
    "\\bdd\\s+if=".data,
    ">\\s*/dev/sd".data,
    "\\b(shutdown|reboot|poweroff)\\b".data,
    ":\\(\\)\\s*\\\x7b.*\\\x7d;\\s*:".data ]

/-- `_detect_shell`, with the system's `shutil.which` as an oracle:
first hit among `fish`, `bash`, `zsh`, `sh`, else the literal
`/bin/sh`. -/
def detectShell (which : PyStr → Option PyStr) : PyStr :=
  match ["fish", "bash", "zsh", "sh"].findSome? (fun s => which s.data) with
  | some p => p
  | none => "/bin/sh".data

/-- The tool's constructed state. -/
structure ExecTool where
  timeout : Nat
  workingDir : Option PyStr
  denyPatterns : List PyStr
  allowPatterns : List PyStr
  restrictToWorkspace : Bool
  pathAppend : PyStr
  shell : PyStr

/-- `ExecTool.__init__`. -/
def mkExecTool (timeout : Nat) (workingDir : Option PyStr)
    (denyPatterns allowPatterns : Option (List PyStr))
    (restrictToWorkspace : Bool) (pathAppend : PyStr)
    (which : PyStr → Option PyStr) : ExecTool :=
  { timeout := timeout
    workingDir := workingDir
    denyPatterns := pyOrList denyPatterns defaultDenyPatterns
    allowPatterns := pyOrList allowPatterns []
    restrictToWorkspace := restrictToWorkspace
    pathAppend := pathAppend
    shell := detectShell which }

/-! ## The guard (`ExecTool._guard_command`) -/

def dangerousMsg : PyStr :=
  "Error: Command blocked by safety guard (dangerous pattern detected)".data
def allowMsg : PyStr :=
  "Error: Command blocked by safety guard (not in allowlist)".data
def traversalMsg : PyStr :=
  "Error: Command blocked by safety guard (path traversal detected)".data
def outsideMsg : PyStr :=
  "Error: Command blocked by safety guard (path outside working dir)".data

/-- The workspace check of one extracted path: `Path(raw.strip())`
resolved (a raised resolution is skipped), then
`p.is_absolute() and cwd_path not in p.parents and p != cwd_path`.
A path produced by `resolve` is always anchored, which `p.isAbs`
records. -/
def outsideWorkspace (rv : Resolve) (cwdP : RPath) (raw : PyStr) : Bool :=
  match rv (pyStrip raw) with
  | none => false
  | some p => p.isAbs && !(RPath.inParents cwdP p) && !(decide (p = cwdP))

/-- `ExecTool._guard_command`.  `Except.error ()` models an exception
escaping the guard: `Path(cwd).resolve()` is called outside any
`try`, so its failure propagates out of `execute` as well. -/
def guardCommand (tool : ExecTool) (rs : ReSearch) (rv : Resolve)
    (command cwd : PyStr) : Except Unit (Option PyStr) :=
  let cmd := pyStrip command
  let lower := pyLower cmd
  if tool.denyPatterns.any (fun p => rs p lower) then
    Except.ok (some dangerousMsg)
  else if !tool.allowPatterns.isEmpty &&
      !(tool.allowPatterns.any (fun p => rs p lower)) then
    Except.ok (some allowMsg)
  else if tool.restrictToWorkspace then
    if pyIn "..\\".data cmd || pyIn "../".data cmd then
      Except.ok (some traversalMsg)
    else
      match rv cwd with
      | none => Except.error ()
      | some cwdP =>
        if (extractAbsolutePaths cmd).any (outsideWorkspace rv cwdP) then
          Except.ok (some outsideMsg)
        else
          Except.ok none
  else
    Except.ok none

/-! ## Output rendering and `ExecTool.execute` -/

/-- Decimal rendering of a `Nat`, as Python's `str(n)`. -/
def natPy (n : Nat) : PyStr := (toString n).data

/-- Decimal rendering of an `Int`, as Python's `str(i)`. -/
def intPy (i : Int) : PyStr := (toString i).data

/-- Python `"\n".join`-style joining with an arbitrary separator. -/
def pyJoin (sep : PyStr) : List PyStr → PyStr
  | [] => []
  | [x] => x
  | x :: y :: rest => x ++ sep ++ pyJoin sep (y :: rest)

/-- The exit-code annotation `f"\nExit code: {returncode}"`. -/
def exitPart (rc : Int) : PyStr := "\nExit code: ".data ++ intPy rc

/-- The `output_parts` list built by `execute` for a completed process.
Captured stdout/stderr are modelled as their decoded texts: decoding
with `errors="replace"` never fails and maps nonempty bytes to nonempty
text, so the bytes-truthiness tests become nonemptiness of the text. -/
def outputParts (stdout stderr : PyStr) (rc : Int) : List PyStr :=
  (if stdout.isEmpty then [] else [stdout]) ++
  (if stderr.isEmpty then []
   else if (pyStrip stderr).isEmpty then []
   else ["STDERR:\n".data ++ stderr]) ++
  (if rc = 0 then [] else [exitPart rc])

/-- `"\n".join(output_parts) if output_parts else "(no output)"`. -/
def renderOutcome (stdout stderr : PyStr) (rc : Int) : PyStr :=
  let parts := outputParts stdout stderr rc
  if parts.isEmpty then "(no output)".data else pyJoin "\n".data parts

/-- The 10,000-character cap with the elision marker. -/
def truncateResult (r : PyStr) : PyStr :=
  if 10000 < r.length then
    r.take 10000 ++ "\n... (truncated, ".data ++
      natPy (r.length - 10000) ++ " more chars)".data
  else r

/-- The timeout message `f"Error: Command timed out after {t} seconds"`. -/
def timeoutMsg (t : Nat) : PyStr :=
  "Error: Command timed out after ".data ++ natPy t ++ " seconds".data

/-- What the one subprocess of a call did: `create_subprocess_exec`
raised, or `communicate` timed out (with the post-kill grace wait
itself timing out or not), or the process completed with decoded
stdout/stderr and an exit code. -/
inductive RunOutcome where
  | spawnError (msg : PyStr)
  | timedOut (graceTimedOut : Bool)
  | completed (stdout stderr : PyStr) (returncode : Int)

/-- Observable side effects of `execute`, in order of occurrence:
entering `create_subprocess_exec`, the subprocess existing, `kill()`,
the bounded `wait` after a kill (with its fixed bound in seconds), the
result string being rendered, and the history-append side process being
launched. -/
inductive ExecEvent where
  | spawnAttempt
  | spawned
  | killed
  | graceWait (secs : Nat)
  | rendered
  | historyAppend
deriving DecidableEq

/-- `working_dir or self.working_dir or os.getcwd()`. -/
def execCwd (tool : ExecTool) (workingDir : Option PyStr)
    (procCwd : PyStr) : PyStr :=
  pyOrS workingDir (pyOrS tool.workingDir procCwd)

/-- `ExecTool.execute`, as the returned string plus the ordered event
trace, with `procCwd` the value of `os.getcwd()` and `oc` the
subprocess oracle.  `Except.error ()` is an exception escaping the
call (the guard runs outside the `try` block).  `_add_to_history`
returns without launching anything unless `"fish" in self.shell`; its
own spawn failures are swallowed, so the trace records only the launch
attempt. -/
def executeRun (tool : ExecTool) (rs : ReSearch) (rv : Resolve)
    (command : PyStr) (workingDir : Option PyStr) (procCwd : PyStr)
    (oc : RunOutcome) : Except Unit (PyStr × List ExecEvent) :=
  let cwd := execCwd tool workingDir procCwd
  match guardCommand tool rs rv command cwd with
  | Except.error e => Except.error e
  | Except.ok (some msg) => Except.ok (msg, [])
  | Except.ok none =>
    match oc with
    | RunOutcome.spawnError m =>
      Except.ok ("Error executing command: ".data ++ m,
        [ExecEvent.spawnAttempt])
    | RunOutcome.timedOut _ =>
      Except.ok (timeoutMsg tool.timeout,
        [ExecEvent.spawnAttempt, ExecEvent.spawned, ExecEvent.killed,
          ExecEvent.graceWait 5])
    | RunOutcome.completed out err rc =>
      Except.ok (truncateResult (renderOutcome out err rc),
        [ExecEvent.spawnAttempt, ExecEvent.spawned, ExecEvent.rendered] ++
          (if pyIn "fish".data tool.shell then [ExecEvent.historyAppend]
           else []))

/-! ## Concrete instances used by witnesses -/

/-- Substring search: the unanchored `re.search` of a pattern that is a
plain literal. -/
def subSearch : ReSearch := fun p s => pyIn p s

/-- A resolver for tools that never reach path resolution. -/
def rvNone : Resolve := fun _ => none

/-- `Path(s).resolve()` raising exactly on an embedded null byte
(`ValueError` in CPython, uncaught by the guard's `except`-free cwd
resolution). -/
def rvNullRaise : Resolve :=
  fun s => if '\x00' ∈ s then none else some ⟨true, [s]⟩

/-- A resolver fixing two concrete filesystem paths. -/
def rvDemo : Resolve := fun s =>
  if s = "/tmp/work".data then some ⟨true, ["tmp".data, "work".data]⟩
  else if s = "/etc/passwd".data then
    some ⟨true, ["etc".data, "passwd".data]⟩
  else none

/-- A permissive configuration with a fish shell. -/
def toolPlain : ExecTool :=
  ⟨60, none, [], [], false, [], "/usr/bin/fish".data⟩

/-- A workspace-restricted configuration. -/
def toolRestrict : ExecTool :=
  ⟨60, none, [], [], true, [], "/bin/bash".data⟩

/-- A configuration with one custom literal deny pattern. -/
def toolDeny : ExecTool :=
  ⟨60, none, ["rm -rf".data], [], false, [], "/bin/bash".data⟩

/-- A configuration with one allow pattern. -/
def toolAllow : ExecTool :=
  ⟨60, none, [], ["git ".data], false, [], "/bin/bash".data⟩

/-! ## General lemmas about the string model -/

theorem listPre_iff {t s : PyStr} : listPre t s = true ↔ ∃ b, s = t ++ b := by
  induction t generalizing s with
  | nil => simp [listPre]
  | cons a t ih =>
    cases s with
    | nil => simp [listPre]
    | cons b s' =>
      simp only [listPre, Bool.and_eq_true, beq_iff_eq, ih, List.cons_append,
        List.cons.injEq]
      constructor
      · rintro ⟨rfl, c, rfl⟩
        exact ⟨c, rfl, rfl⟩
      · rintro ⟨c, rfl, rfl⟩
        exact ⟨rfl, c, rfl⟩

theorem pyIn_iff {t s : PyStr} : pyIn t s = true ↔ ∃ a b, s = a ++ t ++ b := by
  induction s with
  | nil =>
    simp only [pyIn, List.isEmpty_iff]
    constructor
    · rintro rfl
      exact ⟨[], [], rfl⟩
    · rintro ⟨a, b, h⟩
      rcases List.append_eq_nil.mp h.symm with ⟨h1, h2⟩
      exact (List.append_eq_nil.mp h1).2
  | cons c s' ih =>
    simp only [pyIn, Bool.or_eq_true, listPre_iff, ih]
    constructor
    · rintro (⟨b, hb⟩ | ⟨a, b, hb⟩)
      · exact ⟨[], b, by simpa using hb⟩
      · exact ⟨c :: a, b, by simp [hb]⟩
    · rintro ⟨a, b, h⟩
      cases a with
      | nil => exact Or.inl ⟨b, by simpa using h⟩
      | cons x a' =>
        have h' : c = x ∧ s' = a' ++ t ++ b := by
          simpa using h
        exact Or.inr ⟨a', b, h'.2⟩

/-- `dropWhile` cannot destroy an occurrence of a block `t` none of whose
characters satisfy the dropped predicate. -/
theorem dropWhile_keeps_block {p : Char → Bool} {t : PyStr} (a b : PyStr)
    (ht : t ≠ []) (hw : ∀ c ∈ t, p c = false) :
    ∃ a', (a ++ t ++ b).dropWhile p = a' ++ t ++ b := by
  induction a with
  | nil =>
    cases t with
    | nil => exact absurd rfl ht
    | cons t0 t' =>
      refine ⟨[], ?_⟩
      have h0 : p t0 = false := hw t0 (by simp)
      simp [List.dropWhile_cons, h0]
  | cons x a' ih =>
    by_cases hx : p x = true
    · rcases ih with ⟨a'', h⟩
      refine ⟨a'', ?_⟩
      simpa [List.dropWhile_cons, hx] using h
    · refine ⟨x :: a', ?_⟩
      simp [List.dropWhile_cons, hx]

/-- Stripping preserves any occurrence of a whitespace-free nonempty block. -/
theorem pyIn_pyStrip {t s : PyStr} (ht : t ≠ [])
    (hw : ∀ c ∈ t, pyIsSpace c = false) (h : pyIn t s = true) :
    pyIn t (pyStrip s) = true := by
  rcases pyIn_iff.mp h with ⟨a, b, rfl⟩
  rcases dropWhile_keeps_block (p := pyIsSpace) a b ht hw with ⟨a', h1⟩
  have htr : t.reverse ≠ [] := by
    simpa [List.reverse_eq_nil_iff] using ht
  have hwr : ∀ c ∈ t.reverse, pyIsSpace c = false := by
    intro c hc
    exact hw c (List.mem_reverse.mp hc)
  rcases dropWhile_keeps_block (p := pyIsSpace) b.reverse a'.reverse htr hwr
    with ⟨d, h2⟩
  apply pyIn_iff.mpr
  refine ⟨a', d.reverse, ?_⟩
  unfold pyStrip
  rw [h1]
  have hrev : (a' ++ t ++ b).reverse = b.reverse ++ t.reverse ++ a'.reverse := by
    simp [List.reverse_append, List.append_assoc]
  rw [hrev, h2]
  simp [List.reverse_append, List.append_assoc]
theorem listPre_append_right {t s : PyStr} (u : PyStr)
    (h : listPre t s = true) : listPre t (s ++ u) = true := by
  rcases listPre_iff.mp h with ⟨b, rfl⟩
  exact listPre_iff.mpr ⟨b ++ u, by simp⟩

theorem pyJoin_last (sep : PyStr) (xs : List PyStr) (a : PyStr) :
    ∃ pre, pyJoin sep (xs ++ [a]) = pre ++ a := by
  induction xs with
  | nil => exact ⟨[], rfl⟩
  | cons x xs ih =>
    cases xs with
    | nil => exact ⟨x ++ sep, rfl⟩
    | cons y ys =>
      rcases ih with ⟨pre, hp⟩
      refine ⟨x ++ sep ++ pre, ?_⟩
      have hstep : pyJoin sep ((x :: y :: ys) ++ [a]) =
          x ++ sep ++ pyJoin sep ((y :: ys) ++ [a]) := rfl
      rw [hstep, hp]
      simp [List.append_assoc]

/-- As long as resolving the working directory does not raise, the guard
itself cannot raise. -/
theorem guard_no_raise (tool : ExecTool) (rs : ReSearch) (rv : Resolve)
    (command cwd : PyStr) (hres : rv cwd ≠ none) :
    ∃ o, guardCommand tool rs rv command cwd = Except.ok o := by
  simp only [guardCommand]
  split
  · exact ⟨_, rfl⟩
  · split
    · exact ⟨_, rfl⟩
    · split
      · split
        · exact ⟨_, rfl⟩
        · split
          · rename_i heq
            exact absurd heq hres
          · split
            · exact ⟨_, rfl⟩
            · exact ⟨_, rfl⟩
      · exact ⟨_, rfl⟩

/-- Any blocking message produced by the guard is one of the four
literal block messages. -/
theorem guard_block_msgs (tool : ExecTool) (rs : ReSearch) (rv : Resolve)
    (command cwd : PyStr) (msg : PyStr)
    (h : guardCommand tool rs rv command cwd = Except.ok (some msg)) :
    msg = dangerousMsg ∨ msg = allowMsg ∨ msg = traversalMsg ∨
      msg = outsideMsg := by
  simp only [guardCommand] at h
  split at h
  · simp only [Except.ok.injEq, Option.some.injEq] at h
    exact Or.inl h.symm
  · split at h
    · simp only [Except.ok.injEq, Option.some.injEq] at h
      exact Or.inr (Or.inl h.symm)
    · split at h
      · split at h
        · simp only [Except.ok.injEq, Option.some.injEq] at h
          exact Or.inr (Or.inr (Or.inl h.symm))
        · split at h
          · exact Except.noConfusion h
          · split at h
            · simp only [Except.ok.injEq, Option.some.injEq] at h
              exact Or.inr (Or.inr (Or.inr h.symm))
            · simp at h
      · simp at h

theorem rvDemo_abs : ∀ s p, rvDemo s = some p → p.isAbs = true := by
  intro s p h
  unfold rvDemo at h
  split at h
  · cases h
    rfl
  · split at h
    · cases h
      rfl
    · cases h

theorem joinNoOutput (rc : Int) (xs : List PyStr) :
    (if (xs ++ [exitPart rc]).isEmpty = true then "(no output)".data
     else pyJoin "\n".data (xs ++ [exitPart rc])) =
      pyJoin "\n".data (xs ++ [exitPart rc]) := by
  rw [if_neg]
  simp [List.isEmpty_iff]

/-- When the exit code is non-zero the rendered (pre-truncation) result
ends with the exit-code annotation. -/
theorem renderOutcome_exit_suffix (out err : PyStr) (rc : Int)
    (h : rc ≠ 0) :
    ∃ pre, renderOutcome out err rc = pre ++ exitPart rc := by
  simp only [renderOutcome, outputParts, if_neg h]
  rw [joinNoOutput]
  exact pyJoin_last _ _ _

/-! ## Claim theorems -/

/-- C1: for every command whose trimmed, lower-cased text matches some
configured deny pattern, `execute` returns the dangerous-pattern block
message with an empty event trace — in particular no subprocess
creation is even attempted — whatever the subprocess oracle would have
done. -/
theorem execute_denies_dangerous (tool : ExecTool) (rs : ReSearch)
    (rv : Resolve) (command : PyStr) (workingDir : Option PyStr)
    (procCwd : PyStr) (oc : RunOutcome)
    (h : ∃ p ∈ tool.denyPatterns, rs p (pyLower (pyStrip command)) = true) :
    executeRun tool rs rv command workingDir procCwd oc =
      Except.ok (dangerousMsg, []) := by
  have hany :
      tool.denyPatterns.any (fun p => rs p (pyLower (pyStrip command))) = true := by
    rcases h with ⟨p, hp, hm⟩
    exact List.any_eq_true.mpr ⟨p, hp, hm⟩
  simp [executeRun, guardCommand, hany]

/-- Witness for C1: `sudo rm -rf /tmp` caught by the literal pattern
`rm -rf` under substring search. -/
theorem execute_denies_dangerous_witness :
    executeRun toolDeny subSearch rvNone "sudo rm -rf /tmp".data none
      "/w".data (RunOutcome.completed "x".data [] 0) =
      Except.ok (dangerousMsg, []) :=
  execute_denies_dangerous toolDeny subSearch rvNone "sudo rm -rf /tmp".data
    none "/w".data (RunOutcome.completed "x".data [] 0)
    ⟨"rm -rf".data, by decide, by decide⟩

/-- C3: for every allowed command whose process times out, `execute`
kills the process, performs the bounded 5-second grace wait (whether or
not that wait itself times out), and returns exactly
`Error: Command timed out after <timeout> seconds` with nothing
appended. -/
theorem execute_timeout_exact (tool : ExecTool) (rs : ReSearch)
    (rv : Resolve) (command : PyStr) (workingDir : Option PyStr)
    (procCwd : PyStr) (g : Bool)
    (hguard : guardCommand tool rs rv command
      (execCwd tool workingDir procCwd) = Except.ok none) :
    executeRun tool rs rv command workingDir procCwd
      (RunOutcome.timedOut g) =
      Except.ok ("Error: Command timed out after ".data ++
          natPy tool.timeout ++ " seconds".data,
        [ExecEvent.spawnAttempt, ExecEvent.spawned, ExecEvent.killed,
          ExecEvent.graceWait 5]) := by
  simp [executeRun, hguard, timeoutMsg]

/-- Witness for C3 at the default 60-second timeout. -/
theorem execute_timeout_exact_witness :
    executeRun toolPlain subSearch rvNone "sleep 99".data none "/w".data
      (RunOutcome.timedOut true) =
      Except.ok ("Error: Command timed out after 60 seconds".data,
        [ExecEvent.spawnAttempt, ExecEvent.spawned, ExecEvent.killed,
          ExecEvent.graceWait 5]) :=
  execute_timeout_exact toolPlain subSearch rvNone "sleep 99".data none
    "/w".data true rfl

/-- C10: the history-append side process is launched only on the
successful completion path — a guard block yields an empty trace, a
spawn failure or timeout yields a trace without a history event, and a
completed run appends exactly one history event, after the rendering
event, if and only if the resolved shell path contains `fish`. -/
theorem history_append_policy (tool : ExecTool) (rs : ReSearch)
    (rv : Resolve) (command : PyStr) (workingDir : Option PyStr)
    (procCwd : PyStr) :
    (∀ msg oc, guardCommand tool rs rv command
        (execCwd tool workingDir procCwd) = Except.ok (some msg) →
      executeRun tool rs rv command workingDir procCwd oc =
        Except.ok (msg, []))
    ∧ (guardCommand tool rs rv command
        (execCwd tool workingDir procCwd) = Except.ok none →
      (∀ m, executeRun tool rs rv command workingDir procCwd
          (RunOutcome.spawnError m) =
        Except.ok ("Error executing command: ".data ++ m,
          [ExecEvent.spawnAttempt]))
      ∧ (∀ g, executeRun tool rs rv command workingDir procCwd
          (RunOutcome.timedOut g) =
        Except.ok (timeoutMsg tool.timeout,
          [ExecEvent.spawnAttempt, ExecEvent.spawned, ExecEvent.killed,
            ExecEvent.graceWait 5]))
      ∧ (∀ out err rc, executeRun tool rs rv command workingDir procCwd
          (RunOutcome.completed out err rc) =
        Except.ok (truncateResult (renderOutcome out err rc),
          [ExecEvent.spawnAttempt, ExecEvent.spawned, ExecEvent.rendered]
            ++ (if pyIn "fish".data tool.shell then
                  [ExecEvent.historyAppend] else [])))) := by
  constructor
  · intro msg oc hg
    simp [executeRun, hg]
  · intro hg
    refine ⟨fun m => ?_, fun g => ?_, fun out err rc => ?_⟩ <;>
      simp [executeRun, hg]

/-- Witness for C10: a completed `echo z` under a fish shell records
exactly one history launch, after rendering. -/
theorem history_append_policy_witness :
    executeRun toolPlain subSearch rvNone "echo z".data none "/w".data
      (RunOutcome.completed "z".data [] 0) =
      Except.ok ("z".data,
        [ExecEvent.spawnAttempt, ExecEvent.spawned, ExecEvent.rendered,
          ExecEvent.historyAppend]) :=
  ((history_append_policy toolPlain subSearch rvNone "echo z".data none
      "/w".data).2 rfl).2.2 "z".data [] 0

/-- C2 counterexample: a spawn failure is reported as
`Error executing command: <detail>`, which is not prefixed by the
claimed `Error:`; moreover with workspace restriction on, a working
directory whose resolution raises (CPython: an embedded null byte)
makes `execute` itself raise, because the guard runs outside the `try`
block. -/
theorem execute_error_label_cex :
    executeRun toolPlain subSearch rvNone "echo hi".data none "/w".data
      (RunOutcome.spawnError "boom".data) =
      Except.ok ("Error executing command: boom".data,
        [ExecEvent.spawnAttempt])
    ∧ listPre "Error:".data "Error executing command: boom".data = false
    ∧ executeRun toolRestrict subSearch rvNullRaise "echo hi".data
        (some "/w\x00rk".data) "/w".data (RunOutcome.completed [] [] 0) =
      Except.error () := by
  refine ⟨rfl, by decide, rfl⟩

/-- C2 (amended): provided resolving the working directory does not
itself raise, `execute` never raises; guard blocks and timeouts are
returned prefixed `Error:`, spawn failures are returned prefixed
`Error` (as `Error executing command: <detail>`), and a completed run
with non-zero exit instead carries the `Exit code:` annotation as the
suffix of the rendered result. -/
theorem execute_failure_modes (tool : ExecTool) (rs : ReSearch)
    (rv : Resolve) (command : PyStr) (workingDir : Option PyStr)
    (procCwd : PyStr)
    (hres : rv (execCwd tool workingDir procCwd) ≠ none) :
    (∀ oc, ∃ res ev, executeRun tool rs rv command workingDir procCwd oc =
        Except.ok (res, ev))
    ∧ (∀ msg oc, guardCommand tool rs rv command
          (execCwd tool workingDir procCwd) = Except.ok (some msg) →
        executeRun tool rs rv command workingDir procCwd oc =
            Except.ok (msg, [])
          ∧ listPre "Error:".data msg = true)
    ∧ (guardCommand tool rs rv command
          (execCwd tool workingDir procCwd) = Except.ok none →
        (∀ m, executeRun tool rs rv command workingDir procCwd
              (RunOutcome.spawnError m) =
            Except.ok ("Error executing command: ".data ++ m,
              [ExecEvent.spawnAttempt])
          ∧ listPre "Error".data ("Error executing command: ".data ++ m) =
              true)
        ∧ (∀ g, executeRun tool rs rv command workingDir procCwd
              (RunOutcome.timedOut g) =
            Except.ok (timeoutMsg tool.timeout,
              [ExecEvent.spawnAttempt, ExecEvent.spawned,
                ExecEvent.killed, ExecEvent.graceWait 5])
          ∧ listPre "Error:".data (timeoutMsg tool.timeout) = true)
        ∧ (∀ out err rc, rc ≠ (0 : Int) →
            ∃ pre, renderOutcome out err rc = pre ++ exitPart rc)) := by
  refine ⟨?_, ?_, ?_⟩
  · intro oc
    rcases guard_no_raise tool rs rv command
      (execCwd tool workingDir procCwd) hres with ⟨o, ho⟩
    rcases hx : executeRun tool rs rv command workingDir procCwd oc
      with e | ⟨res, ev⟩
    · exfalso
      cases o with
      | some msg => simp [executeRun, ho] at hx
      | none => cases oc <;> simp [executeRun, ho] at hx
    · exact ⟨res, ev, rfl⟩
  · intro msg oc hg
    refine ⟨by simp [executeRun, hg], ?_⟩
    rcases guard_block_msgs tool rs rv command _ msg hg with h1 | h1 | h1 | h1 <;>
      subst h1 <;> decide
  · intro hg
    refine ⟨fun m => ⟨by simp [executeRun, hg], ?_⟩,
      fun g => ⟨by simp [executeRun, hg], ?_⟩,
      fun out err rc hrc => renderOutcome_exit_suffix out err rc hrc⟩
    · exact listPre_append_right m (by decide)
    · exact listPre_append_right " seconds".data
        (listPre_append_right (natPy tool.timeout) (by decide))

/-- Witness for the amended C2 at a concrete spawn failure. -/
theorem execute_failure_modes_witness :
    executeRun toolPlain subSearch rvDemo "echo hi".data none
      "/tmp/work".data (RunOutcome.spawnError "no such file".data) =
      Except.ok ("Error executing command: no such file".data,
        [ExecEvent.spawnAttempt])
    ∧ listPre "Error".data "Error executing command: no such file".data =
        true :=
  ((execute_failure_modes toolPlain subSearch rvDemo "echo hi".data none
      "/tmp/work".data (by decide)).2.2 rfl).1 "no such file".data

/-- C4: with workspace restriction on, no traversal token present, and
the earlier deny/allow stages passing, the guard blocks with the
path-outside-working-dir message exactly when some extracted absolute
path literal resolves (resolution failures being skipped) to a path
that is neither the resolved working directory nor a descendant of
it. -/
theorem guard_workspace_confinement (tool : ExecTool) (rs : ReSearch)
    (rv : Resolve) (command cwd : PyStr) (cwdP : RPath)
    (hrestrict : tool.restrictToWorkspace = true)
    (hdeny : ∀ p ∈ tool.denyPatterns, rs p (pyLower (pyStrip command)) = false)
    (hallow : tool.allowPatterns = [] ∨
      ∃ p ∈ tool.allowPatterns, rs p (pyLower (pyStrip command)) = true)
    (htrav : pyIn "..\\".data (pyStrip command) = false ∧
      pyIn "../".data (pyStrip command) = false)
    (hcwd : rv cwd = some cwdP)
    (habs : ∀ s p, rv s = some p → p.isAbs = true) :
    guardCommand tool rs rv command cwd = Except.ok (some outsideMsg) ↔
      ∃ raw ∈ extractAbsolutePaths (pyStrip command), ∃ p,
        rv (pyStrip raw) = some p ∧ RPath.inParents cwdP p = false ∧
          p ≠ cwdP := by
  have hdeny' :
      tool.denyPatterns.any (fun p => rs p (pyLower (pyStrip command))) = false :=
    List.any_eq_false.mpr (fun x hx => by simp [hdeny x hx])
  have hallow' : (!tool.allowPatterns.isEmpty &&
      !(tool.allowPatterns.any (fun p => rs p (pyLower (pyStrip command))))) = false := by
    rcases hallow with h | ⟨p, hp, hm⟩
    · simp [h]
    · have hA : tool.allowPatterns.any
          (fun p => rs p (pyLower (pyStrip command))) = true :=
        List.any_eq_true.mpr ⟨p, hp, hm⟩
      simp [hA]
  have htrav' : (pyIn "..\\".data (pyStrip command) ||
      pyIn "../".data (pyStrip command)) = false := by
    simp [htrav.1, htrav.2]
  simp only [guardCommand, hdeny', hallow', hrestrict, htrav', hcwd,
    Bool.false_eq_true, if_false, if_true]
  constructor
  · intro hblock
    split at hblock
    · rename_i hA
      rcases List.any_eq_true.mp hA with ⟨raw, hmem, hout⟩
      refine ⟨raw, hmem, ?_⟩
      unfold outsideWorkspace at hout
      rcases hrv : rv (pyStrip raw) with _ | p
      · rw [hrv] at hout
        exact absurd hout (by simp)
      · rw [hrv] at hout
        simp only [Bool.and_eq_true, Bool.not_eq_true',
          decide_eq_false_iff_not] at hout
        exact ⟨p, rfl, hout.1.2, hout.2⟩
    · simp at hblock
  · rintro ⟨raw, hmem, p, hrv, hpar, hne⟩
    have hout : outsideWorkspace rv cwdP raw = true := by
      unfold outsideWorkspace
      rw [hrv]
      simp [habs _ _ hrv, hpar, hne]
    have hA : (extractAbsolutePaths (pyStrip command)).any
        (outsideWorkspace rv cwdP) = true :=
      List.any_eq_true.mpr ⟨raw, hmem, hout⟩
    simp [hA]

/-- Witness for C4: `cat /etc/passwd` from workspace `/tmp/work` is
blocked as outside the workspace. -/
theorem guard_workspace_confinement_witness :
    guardCommand toolRestrict subSearch rvDemo "cat /etc/passwd".data
      "/tmp/work".data = Except.ok (some outsideMsg) :=
  (guard_workspace_confinement toolRestrict subSearch rvDemo
      "cat /etc/passwd".data "/tmp/work".data
      ⟨true, ["tmp".data, "work".data]⟩ rfl (by decide) (Or.inl rfl)
      (by decide) (by decide) rvDemo_abs).mpr
    ⟨"/etc/passwd".data, by decide,
      ⟨true, ["etc".data, "passwd".data]⟩, by decide, by decide, by decide⟩

/-- C5: with the deny stage passing, a non-empty allow-list blocks any
command matching none of its patterns with the not-in-allowlist
message, while a command matching at least one pattern (or an empty
allow-list) leaves the guard behaving exactly as if no allow-list were
configured. -/
theorem guard_allowlist (tool : ExecTool) (rs : ReSearch) (rv : Resolve)
    (command cwd : PyStr)
    (hdeny : ∀ p ∈ tool.denyPatterns, rs p (pyLower (pyStrip command)) = false) :
    ((tool.allowPatterns ≠ [] ∧
        ∀ p ∈ tool.allowPatterns, rs p (pyLower (pyStrip command)) = false) →
      guardCommand tool rs rv command cwd = Except.ok (some allowMsg))
    ∧ ((tool.allowPatterns = [] ∨
        ∃ p ∈ tool.allowPatterns, rs p (pyLower (pyStrip command)) = true) →
      guardCommand tool rs rv command cwd =
        guardCommand { tool with allowPatterns := [] } rs rv command cwd) := by
  have hdeny' :
      tool.denyPatterns.any (fun p => rs p (pyLower (pyStrip command))) = false :=
    List.any_eq_false.mpr (fun x hx => by simp [hdeny x hx])
  constructor
  · rintro ⟨hne, hnone⟩
    have hA : tool.allowPatterns.any
        (fun p => rs p (pyLower (pyStrip command))) = false :=
      List.any_eq_false.mpr (fun x hx => by simp [hnone x hx])
    have hE : tool.allowPatterns.isEmpty = false := by
      simpa [List.isEmpty_iff] using hne
    simp [guardCommand, hdeny', hA, hE]
  · intro h
    have hcond : (!tool.allowPatterns.isEmpty &&
        !(tool.allowPatterns.any (fun p => rs p (pyLower (pyStrip command))))) = false := by
      rcases h with h | ⟨p, hp, hm⟩
      · simp [h]
      · have hA : tool.allowPatterns.any
            (fun p => rs p (pyLower (pyStrip command))) = true :=
          List.any_eq_true.mpr ⟨p, hp, hm⟩
        simp [hA]
    simp [guardCommand, hdeny', hcond]

/-- Witness for C5: with allow-list `git `, the command `ls` is blocked
as not allowlisted. -/
theorem guard_allowlist_witness :
    guardCommand toolAllow subSearch rvNone "ls".data "/w".data =
      Except.ok (some allowMsg) :=
  (guard_allowlist toolAllow subSearch rvNone "ls".data "/w".data
      (by decide)).1 ⟨by decide, by decide⟩

/-- C6: under workspace restriction, with the deny and allow stages
passing, a command whose raw (unlowered) text contains `../` or `..\`
is blocked with the path-traversal message, whatever the resolver
would say about any absolute path. -/
theorem guard_traversal_blocks (tool : ExecTool) (rs : ReSearch)
    (rv : Resolve) (command cwd : PyStr)
    (hrestrict : tool.restrictToWorkspace = true)
    (hdeny : ∀ p ∈ tool.denyPatterns, rs p (pyLower (pyStrip command)) = false)
    (hallow : tool.allowPatterns = [] ∨
      ∃ p ∈ tool.allowPatterns, rs p (pyLower (pyStrip command)) = true)
    (htok : pyIn "../".data command = true ∨
      pyIn "..\\".data command = true) :
    guardCommand tool rs rv command cwd = Except.ok (some traversalMsg) := by
  have hdeny' :
      tool.denyPatterns.any (fun p => rs p (pyLower (pyStrip command))) = false :=
    List.any_eq_false.mpr (fun x hx => by simp [hdeny x hx])
  have hallow' : (!tool.allowPatterns.isEmpty &&
      !(tool.allowPatterns.any (fun p => rs p (pyLower (pyStrip command))))) = false := by
    rcases hallow with h | ⟨p, hp, hm⟩
    · simp [h]
    · have hA : tool.allowPatterns.any
          (fun p => rs p (pyLower (pyStrip command))) = true :=
        List.any_eq_true.mpr ⟨p, hp, hm⟩
      simp [hA]
  have htok' : (pyIn "..\\".data (pyStrip command) ||
      pyIn "../".data (pyStrip command)) = true := by
    rcases htok with h | h
    · exact Bool.or_eq_true_iff.mpr
        (Or.inr (pyIn_pyStrip (by decide) (by decide) h))
    · exact Bool.or_eq_true_iff.mpr
        (Or.inl (pyIn_pyStrip (by decide) (by decide) h))
  simp [guardCommand, hdeny', hallow', hrestrict, htok']

/-- Witness for C6: `cat ../x` is blocked as path traversal under the
restricted configuration. -/
theorem guard_traversal_blocks_witness :
    guardCommand toolRestrict subSearch rvNone "cat ../x".data "/w".data =
      Except.ok (some traversalMsg) :=
  guard_traversal_blocks toolRestrict subSearch rvNone "cat ../x".data
    "/w".data rfl (by decide) (Or.inl rfl) (Or.inl (by decide))

/-- C7: a completed run returns the rendered result through the
truncation step; any rendered string longer than 10,000 characters
becomes its first 10,000 characters followed by the elision marker
whose count is exactly the original length minus 10,000, and any
shorter or equal string is returned unmodified. -/
theorem execute_truncation (tool : ExecTool) (rs : ReSearch)
    (rv : Resolve) (command : PyStr) (workingDir : Option PyStr)
    (procCwd : PyStr) (out err : PyStr) (rc : Int)
    (hguard : guardCommand tool rs rv command
      (execCwd tool workingDir procCwd) = Except.ok none) :
    executeRun tool rs rv command workingDir procCwd
      (RunOutcome.completed out err rc) =
      Except.ok (truncateResult (renderOutcome out err rc),
        [ExecEvent.spawnAttempt, ExecEvent.spawned, ExecEvent.rendered] ++
          (if pyIn "fish".data tool.shell then [ExecEvent.historyAppend]
           else []))
    ∧ (∀ r : PyStr, 10000 < r.length →
        truncateResult r = r.take 10000 ++ "\n... (truncated, ".data ++
          natPy (r.length - 10000) ++ " more chars)".data
        ∧ (r.take 10000).length = 10000)
    ∧ (∀ r : PyStr, r.length ≤ 10000 → truncateResult r = r) := by
  refine ⟨by simp [executeRun, hguard], fun r hr => ⟨?_, ?_⟩, fun r hr => ?_⟩
  · unfold truncateResult
    rw [if_pos hr]
  · simp only [List.length_take]
    omega
  · unfold truncateResult
    rw [if_neg (Nat.not_lt.mpr hr)]

/-- Witness for C7: a short completed `echo hi` run is returned
unmodified. -/
theorem execute_truncation_witness :
    executeRun toolPlain subSearch rvNone "echo hi".data none "/w".data
      (RunOutcome.completed "hi".data [] 0) =
      Except.ok ("hi".data,
        [ExecEvent.spawnAttempt, ExecEvent.spawned, ExecEvent.rendered,
          ExecEvent.historyAppend])
    ∧ truncateResult "hi".data = "hi".data :=
  ⟨(execute_truncation toolPlain subSearch rvNone "echo hi".data none
      "/w".data "hi".data [] 0 rfl).1,
    (execute_truncation toolPlain subSearch rvNone "echo hi".data none
      "/w".data "hi".data [] 0 rfl).2.2 "hi".data (by decide)⟩

/-- C8 counterexample: a process that prints the text `Exit code: 5`
and exits with code zero yields a returned string that contains an
exit-code annotation line even though the exit code is zero, so
"contains an annotation iff the exit code is non-zero" fails. -/
theorem exit_annotation_cex :
    executeRun toolPlain subSearch rvNone "echo t".data none "/w".data
      (RunOutcome.completed "Exit code: 5".data [] 0) =
      Except.ok ("Exit code: 5".data,
        [ExecEvent.spawnAttempt, ExecEvent.spawned, ExecEvent.rendered,
          ExecEvent.historyAppend])
    ∧ pyIn "Exit code: ".data "Exit code: 5".data = true := by
  refine ⟨rfl, by decide⟩

/-- C8 (amended): the formatter appends the exit-code part — as an
extra final part relative to the zero-exit rendering — if and only if
the exit code is non-zero, and for a non-zero exit the rendered
(pre-truncation) result ends with that annotation; the returned string
may additionally contain such text coming from the process output
itself, and truncation can elide the annotation. -/
theorem render_exit_code_part (out err : PyStr) (rc : Int) :
    outputParts out err rc =
      outputParts out err 0 ++ (if rc = 0 then [] else [exitPart rc])
    ∧ (rc ≠ 0 → ∃ pre, renderOutcome out err rc = pre ++ exitPart rc) := by
  constructor
  · by_cases h : rc = 0
    · subst h
      simp [outputParts]
    · simp [outputParts, h]
  · exact renderOutcome_exit_suffix out err rc

/-- Witness for the amended C8 at stdout `x` and exit code 7. -/
theorem render_exit_code_part_witness :
    outputParts "x".data [] 7 =
      outputParts "x".data [] 0 ++
        (if (7 : Int) = 0 then [] else [exitPart 7])
    ∧ ∃ pre, renderOutcome "x".data [] 7 = pre ++ exitPart 7 :=
  ⟨(render_exit_code_part "x".data [] 7).1,
    (render_exit_code_part "x".data [] 7).2 (by decide)⟩

/-- C9 counterexample: constructing the tool with an explicitly empty
`deny_patterns` list does not leave the deny set empty — Python's
`deny_patterns or [...]` treats the empty list as falsy, so the
built-in defaults are used instead of the provided value. -/
theorem deny_patterns_empty_cex :
    (mkExecTool 60 none (some []) none false [] (fun _ => none)).denyPatterns
      = defaultDenyPatterns
    ∧ defaultDenyPatterns ≠ [] :=
  ⟨rfl, by decide⟩

/-- C9 (amended): an explicitly provided non-empty `deny_patterns`
sequence replaces the built-in defaults entirely, while providing the
empty sequence — like omitting the argument — falls back to the
built-in defaults. -/
theorem deny_patterns_config (t : Nat) (wd : Option PyStr)
    (ap : Option (List PyStr)) (r : Bool) (pa : PyStr)
    (which : PyStr → Option PyStr) (l : List PyStr) (hl : l ≠ []) :
    (mkExecTool t wd (some l) ap r pa which).denyPatterns = l
    ∧ (mkExecTool t wd (some []) ap r pa which).denyPatterns =
        defaultDenyPatterns
    ∧ (mkExecTool t wd none ap r pa which).denyPatterns =
        defaultDenyPatterns := by
  refine ⟨?_, rfl, rfl⟩
  simp [mkExecTool, pyOrList, List.isEmpty_iff, hl]

/-- Witness for the amended C9 with the one-pattern list `ls`. -/
theorem deny_patterns_config_witness :
    (mkExecTool 60 none (some ["ls".data]) none false []
        (fun _ => none)).denyPatterns = ["ls".data]
    ∧ (mkExecTool 60 none (some []) none false []
        (fun _ => none)).denyPatterns = defaultDenyPatterns
    ∧ (mkExecTool 60 none none none false []
        (fun _ => none)).denyPatterns = defaultDenyPatterns :=
  deny_patterns_config 60 none none false [] (fun _ => none)
    ["ls".data] (by decide)
